import Mathlib

/-!
Verification of the orders-service domain-event pipeline
(`service_orders/events`: events.go, service.go, handlers.go, the in-memory
publisher, and `service_orders/models`).

Shallow embedding conventions:
* `uuid.UUID` and `time.Time` are abstracted as `String` (their values are
  opaque to all verified code paths; only JSON kind mismatches matter).
* `float64` amounts are abstracted as `Int` (no verified path does float
  arithmetic; only the JSON kind of a numeric field matters).
* `map[string]interface{}` payloads are modelled by a small JSON value type;
  the `json.Marshal`/`json.Unmarshal` round trip used by the handlers is
  modelled by direct field-wise decoding with Go semantics: a missing or
  null field keeps the zero value, a field of the wrong JSON kind fails,
  unknown fields are ignored.  String-format validation of UUID/time values
  is abstracted away (any JSON string is accepted); this only shrinks the
  set of decode failures and no theorem depends on it.
* Goroutine nondeterminism in `select` is modelled by quantifying over the
  ready case chosen; atomic counters are modelled by explicit state passing.
-/

namespace SystemControl

/-- UUIDs are abstracted as strings (opaque identifiers). -/
abbrev UUID := String

/-- Wall-clock times are abstracted as strings (opaque values). -/
abbrev Time := String

/-! ## models (service_orders/models): order statuses and order data -/

/-- Go: `type OrderStatus string`. -/
abbrev OrderStatus := String

/-- Go: `OrderStatusCreated OrderStatus = "создан"`. -/
def OrderStatusCreated : OrderStatus := "создан"

/-- Go: `OrderStatusInWork OrderStatus = "в работе"`. -/
def OrderStatusInWork : OrderStatus := "в работе"

/-- Go: `OrderStatusCompleted OrderStatus = "выполнен"`. -/
def OrderStatusCompleted : OrderStatus := "выполнен"

/-- Go: `OrderStatusCancelled OrderStatus = "отменён"`. -/
def OrderStatusCancelled : OrderStatus := "отменён"

/-- Go struct `models.OrderItem` (Product, Quantity, Price). -/
structure OrderItem where
  Product : String
  Quantity : Int
  Price : Int
deriving Repr, DecidableEq

/-- Go struct `models.Order` (fields used by the event façade). -/
structure Order where
  ID : UUID
  UserID : UUID
  Items : List OrderItem
  Status : OrderStatus
  TotalSum : Int
  CreatedAt : Time
deriving Repr, DecidableEq

/-! ## events.go: event types, payload data, metadata, DomainEvent -/

/-- Go: `type EventType string`. -/
abbrev EventType := String

/-- Go: `OrderCreatedEvent EventType = "order.created"`. -/
def OrderCreatedEvent : EventType := "order.created"

/-- Go: `OrderStatusUpdatedEvent EventType = "order.status.updated"`. -/
def OrderStatusUpdatedEvent : EventType := "order.status.updated"

/-- Go struct `events.Metadata`. -/
structure Metadata where
  RequestID : String
  UserAgent : String
  IPAddress : String
  Source : String
  CorrelationID : String
deriving Repr, DecidableEq

/-- Go struct `events.OrderCreatedEventData`. -/
structure OrderCreatedEventData where
  OrderID : UUID
  UserID : UUID
  Items : List OrderItem
  TotalSum : Int
  Status : OrderStatus
  CreatedAt : Time
deriving Repr, DecidableEq

/-- Go struct `events.OrderStatusUpdatedEventData`. -/
structure OrderStatusUpdatedEventData where
  OrderID : UUID
  UserID : UUID
  OldStatus : OrderStatus
  NewStatus : OrderStatus
  UpdatedAt : Time
  UpdatedBy : UUID
deriving Repr, DecidableEq

/-- Minimal JSON value model for `map[string]interface{}` payloads that
arrive across a serialization boundary.  Numbers are abstracted as `Int`. -/
inductive Json where
  | null : Json
  | bool (b : Bool) : Json
  | num (n : Int) : Json
  | str (s : String) : Json
  | arr (elems : List Json) : Json
  | obj (fields : List (String × Json)) : Json
deriving Repr

/-- The dynamic type of `DomainEvent.Data` (Go `interface{}`): either one of
the two typed payload structs, a generic `map[string]interface{}` (after JSON
unmarshaling), or some other dynamic type. -/
inductive EventData where
  | createdData (d : OrderCreatedEventData) : EventData
  | statusData (d : OrderStatusUpdatedEventData) : EventData
  | mapData (m : List (String × Json)) : EventData
  | otherData (tag : String) : EventData
deriving Repr

/-- Go struct `events.DomainEvent`.  The Go field `Type` is spelled `type`
here because `Type` is reserved in Lean. -/
structure DomainEvent where
  ID : UUID
  type : EventType
  AggregateID : UUID
  UserID : UUID
  Timestamp : Time
  Version : Int
  Data : EventData
  Metadata : Metadata
deriving Repr

/-! ## service.go: metadata extraction and correlation ids -/

/-- The parts of Go `*http.Request` read by `extractMetadata`:
`r.Header.Get("X-Request-ID")`, `r.UserAgent()`, `r.RemoteAddr`. -/
structure HttpRequest where
  headers : List (String × String)
  userAgent : String
  remoteAddr : String
deriving Repr, DecidableEq

/-- Go `r.Header.Get(key)`: the first value for the key, or "" if absent. -/
def headerGet (r : HttpRequest) (key : String) : String :=
  (r.headers.lookup key).getD ""

/-- Go `generateCorrelationID(r, operation)`: the `X-Request-ID` header
concatenated with the operation via "-", or the operation alone when the
header is empty. -/
def generateCorrelationID (r : HttpRequest) (operation : String) : String :=
  let requestID := headerGet r "X-Request-ID"
  if requestID = "" then operation
  else requestID ++ "-" ++ operation

/-- Go `EventService.extractMetadata(r, operation)`.  The receiver is unused
by the source, so it is omitted.  A `nil` request is modelled as `none`. -/
def extractMetadata : Option HttpRequest → String → Metadata
  | none, _ =>
      { RequestID := "", UserAgent := "", IPAddress := ""
        Source := "service_orders", CorrelationID := "" }
  | some r, operation =>
      { RequestID := headerGet r "X-Request-ID"
        UserAgent := r.userAgent
        IPAddress := r.remoteAddr
        Source := "service_orders"
        CorrelationID := generateCorrelationID r operation }

/-! ## Kafka stub (KafkaEventPublisher) -/

/-- Go struct `KafkaEventPublisher` (stub for a broker-backed bus). -/
structure KafkaEventPublisher where
  brokers : List String
  topic : String
deriving Repr, DecidableEq

/-- Error message returned by `NewKafkaEventPublisher`. -/
def kafkaNotImplementedNewMsg : String :=
  "Kafka publisher еще не реализован - используйте InMemoryEventPublisher"

/-- Error message returned by the stub Publish and Subscribe. -/
def kafkaNotImplementedMsg : String := "Kafka publisher еще не реализован"

/-- Go `NewKafkaEventPublisher(brokers, topic)`: returns the struct together
with a non-nil "not implemented" error. -/
def NewKafkaEventPublisher (brokers : List String) (topic : String) :
    KafkaEventPublisher × Option String :=
  ({ brokers := brokers, topic := topic }, some kafkaNotImplementedNewMsg)

/-- Go `KafkaEventPublisher.Publish`: always returns a "not implemented"
error. -/
def KafkaEventPublisher.Publish (_p : KafkaEventPublisher)
    (_e : DomainEvent) : Option String :=
  some kafkaNotImplementedMsg

/-- Go `KafkaEventPublisher.Subscribe`: always returns a "not implemented"
error. -/
def KafkaEventPublisher.Subscribe (_p : KafkaEventPublisher)
    (_t : EventType) : Option String :=
  some kafkaNotImplementedMsg

/-- Go `KafkaEventPublisher.Close`: returns nil (no error). -/
def KafkaEventPublisher.Close (_p : KafkaEventPublisher) : Option String :=
  none

/-! ## handlers.go: the global statistics counters -/

/-- Go package-level `var eventStats struct { ... }` of five int64 atomic
counters. -/
structure EventStats where
  OrdersCreated : Int
  StatusUpdates : Int
  OrdersCancelled : Int
  EventsPublished : Int
  EventProcessingErrors : Int
deriving Repr, DecidableEq

/-- Go `GetEventStats()`: the five counters as a name-to-count mapping
(the map is modelled as an association list). -/
def GetEventStats (g : EventStats) : List (String × Int) :=
  [("orders_created", g.OrdersCreated),
   ("status_updates", g.StatusUpdates),
   ("orders_cancelled", g.OrdersCancelled),
   ("events_published", g.EventsPublished),
   ("event_processing_errors", g.EventProcessingErrors)]

/-- Go struct `EventService`.  Its only field is the publisher it wraps;
the publisher identity is all that can distinguish two instances, and
`GetStats` reads none of it. -/
structure EventService where
  publisherId : Nat
deriving Repr, DecidableEq

/-- Go `EventService.GetStats()`: simply returns `GetEventStats()`, reading
only the package-level counters and no per-instance state. -/
def EventService.GetStats (_s : EventService) (g : EventStats) :
    List (String × Int) :=
  GetEventStats g

/-! ## In-memory event bus (InMemoryEventPublisher) -/

/-- An observable side effect of a handler: a notification "sent" by a log
line in the notification handlers. -/
inductive Notification where
  | orderCreated (userID orderID : UUID) : Notification
  | statusChanged (userID orderID : UUID) (newStatus : OrderStatus) : Notification
deriving Repr, DecidableEq

/-- The outcome of one handler invocation: the updated global counters, the
notifications emitted, and the returned Go error (`none` = nil). -/
structure HandlerResult where
  stats : EventStats
  notifications : List Notification
  err : Option String

/-- Go `type EventHandler func(ctx, event) error`, with the shared atomic
counters made explicit state. -/
abbrev EventHandler := DomainEvent → EventStats → HandlerResult

/-- Go `map[EventType][]EventHandler`, modelled as an association list. -/
abbrev Subscribers := List (EventType × List EventHandler)

/-- Go map read `p.subscribers[event.Type]`: the registered list, or the
empty list when the key is absent. -/
def subsFor (subs : Subscribers) (t : EventType) : List EventHandler :=
  (subs.lookup t).getD []

/-- Go: `make(chan *DomainEvent, 100)` — the queue capacity. -/
def queueCapacity : Nat := 100

/-- State of an `InMemoryEventPublisher`: the registry, the buffered channel
contents (FIFO, front = next to be received), whether `p.cancel()` has run
(so `p.ctx.Done()` is closed), and whether `close(p.events)` has run. -/
structure BusState where
  subscribers : Subscribers
  queue : List DomainEvent
  cancelled : Bool
  chClosed : Bool

/-- The three non-default cases of the `select` in `Publish`. -/
inductive SelectCase where
  | send : SelectCase
  | callerDone : SelectCase
  | busDone : SelectCase
deriving Repr, DecidableEq

/-- What a call to `Publish` can do. -/
inductive PublishResult where
  | ok : PublishResult
  | errCallerCancelled : PublishResult
  | errBusClosed : PublishResult
  | errQueueFull : PublishResult
  | panicked : PublishResult
deriving Repr, DecidableEq

/-- Readiness of each `select` case in `Publish`, per Go semantics:
a buffered-channel send is ready when a slot is free, and also (fatally)
when the channel is closed; a receive from a done channel is ready once the
corresponding context is cancelled. -/
def caseReady (s : BusState) (callerCancelled : Bool) : SelectCase → Bool
  | .send => s.chClosed || decide (s.queue.length < queueCapacity)
  | .callerDone => callerCancelled
  | .busDone => s.cancelled

/-- Effect of committing to one ready `select` case of `Publish`:
the send case enqueues and returns nil — unless the channel is closed, in
which case Go panics; `ctx.Done()` returns `ctx.Err()`; `p.ctx.Done()`
returns the error "publisher закрыт". -/
def runCase (s : BusState) (e : DomainEvent) : SelectCase → BusState × PublishResult
  | .send =>
      if s.chClosed then (s, .panicked)
      else ({ s with queue := s.queue ++ [e] }, .ok)
  | .callerDone => (s, .errCallerCancelled)
  | .busDone => (s, .errBusClosed)

/-- All outcomes `Publish(ctx, event)` can have from state `s`: Go `select`
commits nondeterministically to any ready case, and takes the `default`
branch — returning "очередь событий переполнена" — exactly when no case is
ready. -/
def publishOutcomes (s : BusState) (e : DomainEvent) (callerCancelled : Bool) :
    List (BusState × PublishResult) :=
  match [SelectCase.send, SelectCase.callerDone, SelectCase.busDone].filter
      (caseReady s callerCancelled) with
  | [] => [(s, .errQueueFull)]
  | cases => cases.map (runCase s e)

/-- Dispatch of one event by `handleEvent`: one concurrent task is spawned
per handler registered for `event.Type`, each receiving the same event. -/
def dispatchEvent (subs : Subscribers) (e : DomainEvent) :
    List (EventHandler × DomainEvent) :=
  (subsFor subs e.type).map (fun h => (h, e))

/-- The drain loop inside `processEvents` after `p.ctx.Done()` fires: it
repeatedly receives buffered events and calls `handleEvent` on each, in FIFO
order, until the channel is empty, then returns.  The result lists every
handler task spawned during the drain. -/
def drainQueue (subs : Subscribers) : List DomainEvent → List (EventHandler × DomainEvent)
  | [] => []
  | e :: rest => dispatchEvent subs e ++ drainQueue subs rest

/-- Number of goroutines `handleEvent` spawns for one event. -/
def handleEventSpawnCount (subs : Subscribers) (e : DomainEvent) : Nat :=
  (subsFor subs e.type).length

/-- Number of tasks `handleEvent` adds to `p.wg`: the source performs no
`wg.Add` in `handleEvent`, so the spawned handler goroutines are untracked. -/
def handleEventWgAdd : Nat := 0

/-- Number of tasks added to `p.wg` by `NewInMemoryEventPublisher`: exactly
one, for the `processEvents` goroutine (`p.wg.Add(1)`). -/
def newPublisherWgCount : Nat := 1

/-- A run of the publisher: the bus state plus the number of handler
goroutines spawned earlier that have not yet finished. -/
structure BusRun where
  state : BusState
  runningHandlerTasks : Nat

/-- Go `Close()`: `p.cancel()`, then `p.wg.Wait()`, then `close(p.events)`.
The wait joins only the `processEvents` goroutine (the one task in `p.wg`);
before exiting, that goroutine drains the queue, spawning further untracked
handler tasks.  This models the legal execution in which none of the spawned
handler goroutines has been scheduled to completion when `Close` returns:
nothing in `Close` waits for them, since `handleEvent` never calls
`wg.Add`. -/
def closeBus (r : BusRun) : BusRun :=
  { state := { r.state with queue := [], cancelled := true, chClosed := true }
    runningHandlerTasks :=
      r.runningHandlerTasks + (drainQueue r.state.subscribers r.state.queue).length }

/-! ## handlers.go: decoding a generic map payload back into typed data

The source handlers do `dataJSON, _ := json.Marshal(dataMap)` followed by
`json.Unmarshal(dataJSON, &data)`.  The round trip is modelled field-wise
with Go unmarshal semantics: a missing or null field keeps the zero value,
a field of the wrong JSON kind fails the decode, unknown fields are
ignored. -/

/-- Increment the `EventProcessingErrors` atomic counter. -/
def EventStats.incErrors (g : EventStats) : EventStats :=
  { g with EventProcessingErrors := g.EventProcessingErrors + 1 }

/-- Increment the `EventsPublished` atomic counter. -/
def EventStats.incPublished (g : EventStats) : EventStats :=
  { g with EventsPublished := g.EventsPublished + 1 }

/-- Increment the `OrdersCreated` atomic counter. -/
def EventStats.incOrdersCreated (g : EventStats) : EventStats :=
  { g with OrdersCreated := g.OrdersCreated + 1 }

/-- Increment the `StatusUpdates` atomic counter. -/
def EventStats.incStatusUpdates (g : EventStats) : EventStats :=
  { g with StatusUpdates := g.StatusUpdates + 1 }

/-- Increment the `OrdersCancelled` atomic counter. -/
def EventStats.incCancelled (g : EventStats) : EventStats :=
  { g with OrdersCancelled := g.OrdersCancelled + 1 }

/-- Unmarshal a string-typed struct field (strings, statuses, and the
string-abstracted UUIDs and times) from a JSON object. -/
def decodeStrField (m : List (String × Json)) (k : String) : Option String :=
  match m.lookup k with
  | none => some ""
  | some Json.null => some ""
  | some (Json.str s) => some s
  | some _ => none

/-- Unmarshal a numeric struct field from a JSON object. -/
def decodeNumField (m : List (String × Json)) (k : String) : Option Int :=
  match m.lookup k with
  | none => some 0
  | some Json.null => some 0
  | some (Json.num n) => some n
  | some _ => none

/-- Unmarshal one `models.OrderItem` from a JSON value. -/
def decodeOrderItem : Json → Option OrderItem
  | Json.obj f => do
      let product ← decodeStrField f "product"
      let quantity ← decodeNumField f "quantity"
      let price ← decodeNumField f "price"
      some { Product := product, Quantity := quantity, Price := price }
  | _ => none

/-- Unmarshal the `items` field (a slice of order items). -/
def decodeItemsField (m : List (String × Json)) (k : String) :
    Option (List OrderItem) :=
  match m.lookup k with
  | none => some []
  | some Json.null => some []
  | some (Json.arr xs) => xs.mapM decodeOrderItem
  | some _ => none

/-- Reconstruct `OrderCreatedEventData` from a generic map, as the
marshal/unmarshal round trip in the handlers does. -/
def decodeOrderCreatedData (m : List (String × Json)) :
    Option OrderCreatedEventData := do
  let orderID ← decodeStrField m "order_id"
  let userID ← decodeStrField m "user_id"
  let items ← decodeItemsField m "items"
  let totalSum ← decodeNumField m "total_sum"
  let status ← decodeStrField m "status"
  let createdAt ← decodeStrField m "created_at"
  some { OrderID := orderID, UserID := userID, Items := items
         TotalSum := totalSum, Status := status, CreatedAt := createdAt }

/-- Reconstruct `OrderStatusUpdatedEventData` from a generic map. -/
def decodeOrderStatusUpdatedData (m : List (String × Json)) :
    Option OrderStatusUpdatedEventData := do
  let orderID ← decodeStrField m "order_id"
  let userID ← decodeStrField m "user_id"
  let oldStatus ← decodeStrField m "old_status"
  let newStatus ← decodeStrField m "new_status"
  let updatedAt ← decodeStrField m "updated_at"
  let updatedBy ← decodeStrField m "updated_by"
  some { OrderID := orderID, UserID := userID, OldStatus := oldStatus
         NewStatus := newStatus, UpdatedAt := updatedAt, UpdatedBy := updatedBy }

/-! ## handlers.go: the analytics, notification and audit handlers, and the
default logging handlers of the publisher file.

The Go sources wrap the inner unmarshal error with `: %v`; the wrapped
suffix is abstracted away, keeping each distinct message prefix. -/

/-- Go `handleOrderCreatedAnalytics`: typed payload logs and succeeds; a
generic map payload is reconstructed first, failing (counted) when the
decode fails; any other payload type fails (counted) immediately. -/
def handleOrderCreatedAnalytics (e : DomainEvent) (g : EventStats) :
    HandlerResult :=
  match e.Data with
  | .createdData _ => ⟨g, [], none⟩
  | .mapData m =>
      match decodeOrderCreatedData m with
      | some _ => ⟨g, [], none⟩
      | none => ⟨g.incErrors, [],
          some "невозможно десериализовать данные OrderCreatedEvent"⟩
  | _ => ⟨g.incErrors, [], some "неверный тип данных для OrderCreatedEvent"⟩

/-- Go `handleOrderStatusAnalytics`: same shape as the created-analytics
handler, and additionally counts a cancellation when the (typed or
reconstructed) new status is the cancelled status. -/
def handleOrderStatusAnalytics (e : DomainEvent) (g : EventStats) :
    HandlerResult :=
  match e.Data with
  | .statusData d =>
      ⟨if d.NewStatus = OrderStatusCancelled then g.incCancelled else g, [], none⟩
  | .mapData m =>
      match decodeOrderStatusUpdatedData m with
      | some d =>
          ⟨if d.NewStatus = OrderStatusCancelled then g.incCancelled else g, [], none⟩
      | none => ⟨g.incErrors, [],
          some "невозможно десериализовать данные OrderStatusUpdatedEvent"⟩
  | _ => ⟨g.incErrors, [], some "неверный тип данных для OrderStatusUpdatedEvent"⟩

/-- Go `AnalyticsEventHandler`: always counts the event as published, then
counts per type and delegates; unknown types are logged and succeed. -/
def AnalyticsEventHandler : EventHandler := fun e g =>
  let g := g.incPublished
  if e.type = OrderCreatedEvent then
    handleOrderCreatedAnalytics e g.incOrdersCreated
  else if e.type = OrderStatusUpdatedEvent then
    handleOrderStatusAnalytics e g.incStatusUpdates
  else ⟨g, [], none⟩

/-- Go `handleOrderCreatedNotification`: succeeds with a notification to the
order owner; map payloads are reconstructed, failing (counted) when the
decode fails; other payload types fail (counted). -/
def handleOrderCreatedNotification (e : DomainEvent) (g : EventStats) :
    HandlerResult :=
  match e.Data with
  | .createdData d => ⟨g, [.orderCreated d.UserID d.OrderID], none⟩
  | .mapData m =>
      match decodeOrderCreatedData m with
      | some d => ⟨g, [.orderCreated d.UserID d.OrderID], none⟩
      | none => ⟨g.incErrors, [],
          some "невозможно десериализовать данные для уведомления"⟩
  | _ => ⟨g.incErrors, [],
      some "неверный тип данных для уведомления о создании заказа"⟩

/-- Go `handleOrderStatusNotification`: for a well-formed payload, sends a
notification exactly when the new status is the completed or the cancelled
status, and returns nil either way; map payloads are reconstructed first,
failing (counted) when the decode fails; other payload types fail
(counted). -/
def handleOrderStatusNotification (e : DomainEvent) (g : EventStats) :
    HandlerResult :=
  match e.Data with
  | .statusData d =>
      ⟨g,
       if d.NewStatus = OrderStatusCompleted ∨ d.NewStatus = OrderStatusCancelled
       then [.statusChanged d.UserID d.OrderID d.NewStatus] else [],
       none⟩
  | .mapData m =>
      match decodeOrderStatusUpdatedData m with
      | some d =>
          ⟨g,
           if d.NewStatus = OrderStatusCompleted ∨ d.NewStatus = OrderStatusCancelled
           then [.statusChanged d.UserID d.OrderID d.NewStatus] else [],
           none⟩
      | none => ⟨g.incErrors, [],
          some "невозможно десериализовать данные для уведомления"⟩
  | _ => ⟨g.incErrors, [],
      some "неверный тип данных для уведомления об изменении статуса"⟩

/-- Go `NotificationEventHandler`: dispatches on the event type; unknown
types are logged and succeed. -/
def NotificationEventHandler : EventHandler := fun e g =>
  if e.type = OrderCreatedEvent then handleOrderCreatedNotification e g
  else if e.type = OrderStatusUpdatedEvent then handleOrderStatusNotification e g
  else ⟨g, [], none⟩

/-- Go `AuditEventHandler`: serializes the whole event (id, type, aggregate
id, user id, timestamp, metadata, data) into an audit record and logs it.
`json.MarshalIndent` cannot fail on the representable payload values, so
the error branch (which would count a processing error) is unreachable and
the handler performs no payload-type reconstruction at all. -/
def AuditEventHandler : EventHandler := fun _e g => ⟨g, [], none⟩

/-- Go `DefaultEventHandlers[OrderCreatedEvent]` (publisher file): a plain
type assertion with no map-reconstruction fallback; on any payload that is
not the typed struct it returns an error without touching any counter. -/
def defaultOrderCreatedLogHandler : EventHandler := fun e g =>
  match e.Data with
  | .createdData _ => ⟨g, [], none⟩
  | _ => ⟨g, [], some "неверный тип данных для OrderCreatedEvent"⟩

/-- Go `DefaultEventHandlers[OrderStatusUpdatedEvent]` (publisher file):
same shape as the created-event default handler. -/
def defaultOrderStatusLogHandler : EventHandler := fun e g =>
  match e.Data with
  | .statusData _ => ⟨g, [], none⟩
  | _ => ⟨g, [], some "неверный тип данных для OrderStatusUpdatedEvent"⟩

/-- The registry built by `EventService.registerDefaultHandlers`: per type,
its default logging handler, then analytics, notifications and audit (the
latter three subscribed for every known type). -/
def defaultRegistry : Subscribers :=
  [(OrderCreatedEvent,
    [defaultOrderCreatedLogHandler, AnalyticsEventHandler,
     NotificationEventHandler, AuditEventHandler]),
   (OrderStatusUpdatedEvent,
    [defaultOrderStatusLogHandler, AnalyticsEventHandler,
     NotificationEventHandler, AuditEventHandler])]

/-! ## Sample values used by concrete evaluations -/

/-- Empty metadata with the fixed source. -/
def sampleMetadata : Metadata :=
  { RequestID := "", UserAgent := "", IPAddress := ""
    Source := "service_orders", CorrelationID := "" }

/-- All five counters at zero. -/
def zeroStats : EventStats := ⟨0, 0, 0, 0, 0⟩

/-- A status-update payload whose new status is the cancelled status. -/
def sampleStatusData : OrderStatusUpdatedEventData :=
  { OrderID := "order-2", UserID := "user-1"
    OldStatus := OrderStatusCreated, NewStatus := OrderStatusCancelled
    UpdatedAt := "2024-01-01T00:00:00Z", UpdatedBy := "admin-1" }

/-- A well-formed `order.status.updated` event carrying typed data. -/
def sampleStatusEvent : DomainEvent :=
  { ID := "evt-1", type := OrderStatusUpdatedEvent
    AggregateID := "order-2", UserID := "user-1"
    Timestamp := "2024-01-01T00:00:00Z", Version := 1
    Data := EventData.statusData sampleStatusData, Metadata := sampleMetadata }

/-- An `order.created` event whose payload is a plain string (neither the
typed struct nor a generic map). -/
def badCreatedEvent : DomainEvent :=
  { ID := "evt-2", type := OrderCreatedEvent
    AggregateID := "order-1", UserID := "user-1"
    Timestamp := "2024-01-01T00:00:00Z", Version := 1
    Data := EventData.otherData "string", Metadata := sampleMetadata }

/-- Bus state after `Close()` has returned: context cancelled, channel
closed, queue released. -/
def closedBus : BusState :=
  { subscribers := [], queue := [], cancelled := true, chClosed := true }

/-- Bus state during shutdown: context cancelled but the events channel not
yet closed (the window between `p.cancel()` and `close(p.events)`). -/
def drainingBus : BusState :=
  { subscribers := [], queue := [], cancelled := true, chClosed := false }

/-- Running bus whose buffered channel is at capacity. -/
def fullBus : BusState :=
  { subscribers := [], queue := List.replicate 100 sampleStatusEvent
    cancelled := false, chClosed := false }

/-! ## Claim theorems -/

/-- C1: evaluation of `Publish` at the failing inputs.  After `Close()` has
returned, the `select` in `Publish` has two ready cases — the send case,
which panics because the channel is closed, and the bus-done case, which
returns BusClosed — so a publish after close can panic instead of returning
BusClosed.  During shutdown (context cancelled, channel not yet closed) the
send case can instead commit, silently enqueueing the event into a queue no
worker will ever read.  Both outcomes contradict the claim that publish
after close always returns BusClosed, never panicking and never silently
succeeding. -/
theorem C1_publish_after_close_evaluated :
    publishOutcomes closedBus badCreatedEvent false =
      [(closedBus, PublishResult.panicked),
       (closedBus, PublishResult.errBusClosed)] ∧
    publishOutcomes drainingBus badCreatedEvent false =
      [({ drainingBus with queue := [badCreatedEvent] }, PublishResult.ok),
       (drainingBus, PublishResult.errBusClosed)] :=
  ⟨rfl, rfl⟩

/-- C3 counterexample: with one handler invocation spawned before shutdown
still in flight, `closeBus` returns with that task still running (the claim
requires close to have awaited it — zero running tasks), because
`handleEvent` adds nothing to the wait group. -/
theorem C3_close_returns_with_inflight_handler :
    (closeBus ⟨⟨[], [], false, false⟩, 1⟩).runningHandlerTasks = 1 ∧
    handleEventWgAdd = 0 :=
  ⟨rfl, rfl⟩

/-- C3 amended: the wait group tracks only the single dispatch-loop
goroutine (`wg.Add(1)` at construction); `handleEvent` spawns one goroutine
per subscribed handler but adds none of them to the wait group, so `Close`
— which waits only on the wait group — can return while handler
invocations spawned before shutdown are still in flight (the running-task
count is carried over, plus the tasks spawned by the drain). -/
theorem C3_wait_group_tracks_only_dispatch_loop
    (r : BusRun) (subs : Subscribers) (e : DomainEvent) :
    newPublisherWgCount = 1 ∧
    handleEventWgAdd = 0 ∧
    handleEventSpawnCount subs e = (subsFor subs e.type).length ∧
    (closeBus r).runningHandlerTasks =
      r.runningHandlerTasks +
        (drainQueue r.state.subscribers r.state.queue).length :=
  ⟨rfl, rfl, rfl, rfl⟩

/-- C4: while the buffered channel is at its capacity of 100 and the bus is
running (no shutdown begun, channel open, caller context live), no `select`
case is ready, so `Publish` takes the `default` branch: the only possible
outcome is an immediate QueueFull error, with the bus state — in particular
the queue contents — unchanged.  No blocking and no panic is possible. -/
theorem C4_full_queue_publish_rejected (s : BusState) (e : DomainEvent)
    (hfull : s.queue.length = queueCapacity)
    (hrun : s.cancelled = false) (hch : s.chClosed = false) :
    publishOutcomes s e false = [(s, PublishResult.errQueueFull)] := by
  unfold publishOutcomes
  simp [caseReady, hfull, hrun, hch]

/-- C4 witness: a concrete running bus holding 100 buffered events rejects a
publish with QueueFull and is left unchanged. -/
theorem C4_full_queue_publish_rejected_witness :
    publishOutcomes fullBus badCreatedEvent false =
      [(fullBus, PublishResult.errQueueFull)] :=
  C4_full_queue_publish_rejected fullBus badCreatedEvent (by simp [fullBus, queueCapacity]) rfl rfl

/-- C8 counterexample: `PublishOrderCreated` called with a nil request (the
nil branch of `extractMetadata`) produces an empty correlation id, not the
operation name alone, even though no request id is present. -/
theorem C8_nil_request_empty_correlation :
    (extractMetadata none "order.create").CorrelationID = "" ∧
    (extractMetadata none "order.create").CorrelationID ≠ "order.create" := by
  constructor
  · rfl
  · decide

/-- C8 amended: the metadata source is always "service_orders"; when a
request is present the correlation id is the `X-Request-ID` header
concatenated with the operation as "{request_id}-{operation}", or the
operation alone when the header is empty; when the request is nil the
metadata carries only the source and the correlation id is empty. -/
theorem C8_correlation_id_shape (r : HttpRequest) (op : String) :
    (extractMetadata (some r) op).Source = "service_orders" ∧
    (extractMetadata none op).Source = "service_orders" ∧
    (extractMetadata (some r) op).CorrelationID =
      (if headerGet r "X-Request-ID" = "" then op
       else headerGet r "X-Request-ID" ++ "-" ++ op) ∧
    (extractMetadata none op).CorrelationID = "" :=
  ⟨rfl, rfl, rfl, rfl⟩

/-- C9 counterexample: `KafkaEventPublisher.Close` returns nil — a silent
success — contradicting the claim that every operation of the stub fails
fast with a "not implemented" error. -/
theorem C9_kafka_close_silently_succeeds :
    KafkaEventPublisher.Close ⟨["broker-1"], "orders"⟩ = none :=
  rfl

/-- C9 amended: construction, publish and subscribe of the Kafka stub each
fail fast with an explicit "not implemented" error, but `Close` silently
succeeds, returning nil. -/
theorem C9_kafka_stub_operations
    (brokers : List String) (topic : String) (p : KafkaEventPublisher)
    (e : DomainEvent) (t : EventType) :
    (NewKafkaEventPublisher brokers topic).2 = some kafkaNotImplementedNewMsg ∧
    p.Publish e = some kafkaNotImplementedMsg ∧
    p.Subscribe t = some kafkaNotImplementedMsg ∧
    p.Close = none :=
  ⟨rfl, rfl, rfl, rfl⟩

/-- C10: `GetStats` of any two `EventService` instances agree on the same
global counters — the method reads only the package-level atomic counters,
no per-instance state — and the mapping has exactly the five documented
keys. -/
theorem C10_stats_shared_across_instances
    (s1 s2 : EventService) (g : EventStats) :
    s1.GetStats g = s2.GetStats g ∧
    (s1.GetStats g).map Prod.fst =
      ["orders_created", "status_updates", "orders_cancelled",
       "events_published", "event_processing_errors"] :=
  ⟨rfl, rfl⟩

/-- C2: every event still buffered when the shutdown signal fires is
dispatched by the drain loop to every handler subscribed to its type before
the loop terminates — no accepted event is silently dropped from the
queue. -/
theorem C2_drain_dispatches_every_buffered_event
    (subs : Subscribers) (queue : List DomainEvent)
    (e : DomainEvent) (h : EventHandler)
    (hq : e ∈ queue) (hh : h ∈ subsFor subs e.type) :
    (h, e) ∈ drainQueue subs queue := by
  induction queue with
  | nil => cases hq
  | cons x rest ih =>
      rw [drainQueue]
      rcases List.mem_cons.mp hq with hx | hmem
      · subst hx
        exact List.mem_append_left _ (List.mem_map.mpr ⟨h, hh, rfl⟩)
      · exact List.mem_append_right _ (ih hmem)

/-- C2 witness: with the default registry and one buffered status event,
the drain dispatches that event to the audit handler. -/
theorem C2_drain_dispatches_witness :
    (AuditEventHandler, sampleStatusEvent) ∈
      drainQueue defaultRegistry [sampleStatusEvent] :=
  C2_drain_dispatches_every_buffered_event defaultRegistry [sampleStatusEvent]
    sampleStatusEvent AuditEventHandler
    (List.mem_singleton.mpr rfl)
    (by
      have hsubs : subsFor defaultRegistry sampleStatusEvent.type =
          [defaultOrderStatusLogHandler, AnalyticsEventHandler,
           NotificationEventHandler, AuditEventHandler] := rfl
      rw [hsubs]
      simp)

/-- C5 counterexample: the default logging handler for created events,
invoked with a payload of the wrong dynamic type, returns an error — a
failing handler invocation — while the `event_processing_errors` counter
stays at 0, not +1 as the claim requires for every failing invocation. -/
theorem C5_default_handler_error_uncounted :
    (defaultOrderCreatedLogHandler badCreatedEvent zeroStats).err =
      some "неверный тип данных для OrderCreatedEvent" ∧
    (defaultOrderCreatedLogHandler badCreatedEvent zeroStats).stats.EventProcessingErrors
      = 0 :=
  ⟨rfl, rfl⟩

/-- C5 amended: every handler subscribed to an event's type is dispatched
exactly once with that event, unconditionally — so one handler's error
cannot prevent a sibling's invocation, and no error reaches the producer
(dispatch carries none); each failing analytics or notification handler
invocation increments `event_processing_errors` by exactly 1, and the audit
handler never fails — but the default logging handlers return errors
without incrementing any counter. -/
theorem C5_isolation_and_error_counting :
    (∀ (subs : Subscribers) (e : DomainEvent) (h : EventHandler),
        h ∈ subsFor subs e.type → (h, e) ∈ dispatchEvent subs e) ∧
    (∀ (subs : Subscribers) (e : DomainEvent),
        (dispatchEvent subs e).length = (subsFor subs e.type).length) ∧
    (∀ (e : DomainEvent) (g : EventStats),
        (AnalyticsEventHandler e g).err.isSome = true →
        (AnalyticsEventHandler e g).stats.EventProcessingErrors =
          g.EventProcessingErrors + 1) ∧
    (∀ (e : DomainEvent) (g : EventStats),
        (NotificationEventHandler e g).err.isSome = true →
        (NotificationEventHandler e g).stats.EventProcessingErrors =
          g.EventProcessingErrors + 1) ∧
    (∀ (e : DomainEvent) (g : EventStats), (AuditEventHandler e g).err = none) ∧
    (∀ (e : DomainEvent) (g : EventStats),
        (defaultOrderCreatedLogHandler e g).stats = g ∧
        (defaultOrderStatusLogHandler e g).stats = g) := by
  refine ⟨?_, ?_, ?_, ?_, ?_, ?_⟩
  · intro subs e h hh
    exact List.mem_map.mpr ⟨h, hh, rfl⟩
  · intro subs e
    simp [dispatchEvent]
  · intro e g
    unfold AnalyticsEventHandler handleOrderCreatedAnalytics handleOrderStatusAnalytics
    split
    · split <;>
        simp [EventStats.incErrors, EventStats.incPublished, EventStats.incOrdersCreated]
      split <;>
        simp [EventStats.incErrors, EventStats.incPublished, EventStats.incOrdersCreated]
    · split
      · split <;>
          simp [EventStats.incErrors, EventStats.incPublished, EventStats.incStatusUpdates]
        split <;>
          simp [EventStats.incErrors, EventStats.incPublished, EventStats.incStatusUpdates]
      · simp
  · intro e g
    unfold NotificationEventHandler handleOrderCreatedNotification
      handleOrderStatusNotification
    split
    · split <;> simp [EventStats.incErrors]
      split <;> simp [EventStats.incErrors]
    · split
      · split <;> simp [EventStats.incErrors]
        split <;> simp [EventStats.incErrors]
      · simp
  · intro e g
    rfl
  · intro e g
    constructor
    · unfold defaultOrderCreatedLogHandler
      split <;> rfl
    · unfold defaultOrderStatusLogHandler
      split <;> rfl

/-- C5 witness: at the concrete failing analytics invocation (created event
with a string payload) the error counter rises by exactly one. -/
theorem C5_isolation_witness :
    (AnalyticsEventHandler badCreatedEvent zeroStats).stats.EventProcessingErrors =
      zeroStats.EventProcessingErrors + 1 :=
  C5_isolation_and_error_counting.2.2.1 badCreatedEvent zeroStats (by decide)

/-- A generic map payload from which `OrderCreatedEventData` is fully
reconstructible (every field present with the right JSON kind). -/
def goodCreatedMap : List (String × Json) :=
  [("order_id", Json.str "order-1"), ("user_id", Json.str "user-1"),
   ("items", Json.arr
      [Json.obj [("product", Json.str "Phone"),
                 ("quantity", Json.num 2), ("price", Json.num 100)]]),
   ("total_sum", Json.num 200), ("status", Json.str "создан"),
   ("created_at", Json.str "2024-01-01T00:00:00Z")]

/-- An `order.created` event whose payload is the reconstructible map. -/
def mapCreatedEvent : DomainEvent :=
  { ID := "evt-3", type := OrderCreatedEvent
    AggregateID := "order-1", UserID := "user-1"
    Timestamp := "2024-01-01T00:00:00Z", Version := 1
    Data := EventData.mapData goodCreatedMap, Metadata := sampleMetadata }

/-- A generic map payload that cannot be reconstructed: `order_id` has the
wrong JSON kind (a number instead of a string). -/
def badCreatedMap : List (String × Json) := [("order_id", Json.num 5)]

/-- An `order.created` event whose map payload cannot be reconstructed. -/
def badMapCreatedEvent : DomainEvent :=
  { ID := "evt-4", type := OrderCreatedEvent
    AggregateID := "order-1", UserID := "user-1"
    Timestamp := "2024-01-01T00:00:00Z", Version := 1
    Data := EventData.mapData badCreatedMap, Metadata := sampleMetadata }

/-- C6 counterexample: the default logging handler — one of the registered
handlers — receives a map payload that is fully reconstructible, yet makes
no reconstruction attempt: it fails with its type error anyway, and the
failure is not counted as a processing error. -/
theorem C6_default_handler_skips_reconstruction :
    (decodeOrderCreatedData goodCreatedMap).isSome = true ∧
    (defaultOrderCreatedLogHandler mapCreatedEvent zeroStats).err =
      some "неверный тип данных для OrderCreatedEvent" ∧
    (defaultOrderCreatedLogHandler mapCreatedEvent zeroStats).stats.EventProcessingErrors
      = 0 :=
  ⟨rfl, rfl, rfl⟩

/-- C6 amended: the analytics and notification handlers attempt to
reconstruct a generic map payload and fail — with a deserialization error
distinct from their wrong-type error, counted as a processing error —
exactly when reconstruction is impossible; a payload that is neither the
typed struct nor a map fails with the counted wrong-type error.  The
default logging handlers, by contrast, reject every map payload without
attempting reconstruction and without counting, and the audit handler
performs no reconstruction and never fails on payload shape. -/
theorem C6_reconstruction_behavior :
    (∀ (e : DomainEvent) (g : EventStats) (m : List (String × Json)),
        e.Data = EventData.mapData m →
        (handleOrderCreatedAnalytics e g).err =
          (if (decodeOrderCreatedData m).isSome then none
           else some "невозможно десериализовать данные OrderCreatedEvent") ∧
        (handleOrderCreatedAnalytics e g).stats.EventProcessingErrors =
          (if (decodeOrderCreatedData m).isSome then g.EventProcessingErrors
           else g.EventProcessingErrors + 1)) ∧
    (∀ (e : DomainEvent) (g : EventStats) (m : List (String × Json)),
        e.Data = EventData.mapData m →
        (handleOrderStatusAnalytics e g).err =
          (if (decodeOrderStatusUpdatedData m).isSome then none
           else some "невозможно десериализовать данные OrderStatusUpdatedEvent") ∧
        (handleOrderStatusAnalytics e g).stats.EventProcessingErrors =
          (if (decodeOrderStatusUpdatedData m).isSome then g.EventProcessingErrors
           else g.EventProcessingErrors + 1)) ∧
    (∀ (e : DomainEvent) (g : EventStats) (m : List (String × Json)),
        e.Data = EventData.mapData m →
        (handleOrderCreatedNotification e g).err =
          (if (decodeOrderCreatedData m).isSome then none
           else some "невозможно десериализовать данные для уведомления")) ∧
    (∀ (e : DomainEvent) (g : EventStats) (m : List (String × Json)),
        e.Data = EventData.mapData m →
        (handleOrderStatusNotification e g).err =
          (if (decodeOrderStatusUpdatedData m).isSome then none
           else some "невозможно десериализовать данные для уведомления")) ∧
    (∀ (e : DomainEvent) (g : EventStats) (tag : String),
        e.Data = EventData.otherData tag →
        (handleOrderCreatedAnalytics e g).err =
          some "неверный тип данных для OrderCreatedEvent" ∧
        (handleOrderCreatedAnalytics e g).stats.EventProcessingErrors =
          g.EventProcessingErrors + 1) ∧
    ("невозможно десериализовать данные OrderCreatedEvent" ≠
      "неверный тип данных для OrderCreatedEvent") ∧
    (∀ (e : DomainEvent) (g : EventStats) (m : List (String × Json)),
        e.Data = EventData.mapData m →
        (defaultOrderCreatedLogHandler e g).err ≠ none ∧
        (defaultOrderCreatedLogHandler e g).stats = g) ∧
    (∀ (e : DomainEvent) (g : EventStats) (m : List (String × Json)),
        e.Data = EventData.mapData m →
        (defaultOrderStatusLogHandler e g).err ≠ none ∧
        (defaultOrderStatusLogHandler e g).stats = g) ∧
    (∀ (e : DomainEvent) (g : EventStats),
        (AuditEventHandler e g).err = none ∧ (AuditEventHandler e g).stats = g) := by
  refine ⟨?_, ?_, ?_, ?_, ?_, ?_, ?_, ?_, ?_⟩
  · intro e g m hD
    unfold handleOrderCreatedAnalytics
    rw [hD]
    cases hdec : decodeOrderCreatedData m <;> simp [hdec, EventStats.incErrors]
  · intro e g m hD
    unfold handleOrderStatusAnalytics
    rw [hD]
    cases hdec : decodeOrderStatusUpdatedData m <;>
      simp [hdec, EventStats.incErrors, EventStats.incCancelled]
    split <;> simp [EventStats.incCancelled]
  · intro e g m hD
    unfold handleOrderCreatedNotification
    rw [hD]
    cases hdec : decodeOrderCreatedData m <;> simp [hdec, EventStats.incErrors]
  · intro e g m hD
    unfold handleOrderStatusNotification
    rw [hD]
    cases hdec : decodeOrderStatusUpdatedData m <;> simp [hdec, EventStats.incErrors]
  · intro e g tag hD
    unfold handleOrderCreatedAnalytics
    rw [hD]
    simp [EventStats.incErrors]
  · decide
  · intro e g m hD
    unfold defaultOrderCreatedLogHandler
    rw [hD]
    simp
  · intro e g m hD
    unfold defaultOrderStatusLogHandler
    rw [hD]
    simp
  · intro e g
    exact ⟨rfl, rfl⟩

/-- C6 witness: at the concrete non-reconstructible map payload, the
created-analytics handler fails with the deserialization error and counts
exactly one processing error. -/
theorem C6_reconstruction_witness :
    (handleOrderCreatedAnalytics badMapCreatedEvent zeroStats).err =
      some "невозможно десериализовать данные OrderCreatedEvent" ∧
    (handleOrderCreatedAnalytics badMapCreatedEvent zeroStats).stats.EventProcessingErrors
      = 1 := by
  have h := C6_reconstruction_behavior.1 badMapCreatedEvent zeroStats badCreatedMap rfl
  refine ⟨?_, ?_⟩
  · rw [h.1]
    rfl
  · rw [h.2]
    rfl

/-- C7: the status-notification handler, on a well-formed typed payload,
returns success and emits a notification exactly when the new status is the
completed status ("выполнен") or the cancelled status ("отменён"); for any
other new status it emits nothing, and it never changes the counters. -/
theorem C7_notification_iff_terminal_status (e : DomainEvent)
    (d : OrderStatusUpdatedEventData) (g : EventStats)
    (hD : e.Data = EventData.statusData d) :
    (handleOrderStatusNotification e g).err = none ∧
    (handleOrderStatusNotification e g).stats = g ∧
    (handleOrderStatusNotification e g).notifications =
      (if d.NewStatus = OrderStatusCompleted ∨ d.NewStatus = OrderStatusCancelled
       then [Notification.statusChanged d.UserID d.OrderID d.NewStatus]
       else []) ∧
    ((handleOrderStatusNotification e g).notifications ≠ [] ↔
      (d.NewStatus = OrderStatusCompleted ∨ d.NewStatus = OrderStatusCancelled)) := by
  unfold handleOrderStatusNotification
  rw [hD]
  refine ⟨rfl, rfl, rfl, ?_⟩
  by_cases hc : d.NewStatus = OrderStatusCompleted ∨ d.NewStatus = OrderStatusCancelled
  · simp [hc]
  · simp [hc]

/-- C7 witness: a transition to the cancelled status produces exactly one
notification and no error. -/
theorem C7_notification_witness :
    (handleOrderStatusNotification sampleStatusEvent zeroStats).err = none ∧
    (handleOrderStatusNotification sampleStatusEvent zeroStats).notifications =
      [Notification.statusChanged "user-1" "order-2" OrderStatusCancelled] := by
  have h := C7_notification_iff_terminal_status sampleStatusEvent sampleStatusData
    zeroStats rfl
  refine ⟨h.1, ?_⟩
  rw [h.2.2.1]
  rfl

end SystemControl
